import Mathlib

/-!
Verification development for the RepRap G-code protocol engine
(src/src/octoprint/comm/protocol/reprap/__init__.py).

The Python class `ReprapGcodeProtocol` is embedded shallowly: the mutable
`self` record becomes the structure `PState`, each method becomes a function
`PState → PState` (or returns an extra result component), and transport
writes are accumulated in the `written` field.  Collaborator classes that
live outside the given source tree (`LineHistory`, `SendQueue`, `TypedQueue`,
`CountedEvent`, the `commands` module, the flavor table and the `Protocol`
base class) are modelled from the specification, each with a doc comment
saying so.  Machine integers are modelled as `Nat`; byte strings are
`List Nat`; time stamps from `monotonic_time()` are abstracted to a `Nat`
field `now` of the state.
-/

namespace Reprap

/-- Protocol states (octoprint.comm.protocol.ProtocolState, referenced
throughout the source; the full list is given in spec section 4.J). -/
inductive ProtocolState
  | DISCONNECTED
  | DISCONNECTED_WITH_ERROR
  | CONNECTING
  | CONNECTED
  | PROCESSING
  | PAUSING
  | PAUSED
  | RESUMING
  | CANCELLING
  | FINISHING
  deriving DecidableEq, Repr

/-- Command variants: a generic line, a G-code with a code token, or a
host-side at-command.  Modelled from the spec: the `commands` module
(octoprint.comm.protocol.reprap.commands) is not part of the given source;
spec section 3 lists the variants. -/
inductive CmdKind
  | generic
  | gcode (code : String)
  | at (name : String)
  deriving DecidableEq, Repr

/-- Modelled from the spec: a command value of the `commands` module (not in
the given source).  `line` is the raw text sent over the wire, `ctype` the
optional dedup bucket (`command.type`), `tags` the provenance tags, and the
remaining fields are the parsed numeric parameters that the handlers in the
given source access (`command.n`, `command.s`, `command.t`, `command.z`,
`command.p`, `command.r`, `command.tool`).  Numeric parameter payloads
(floats in Python) are abstracted to `Nat`; a parameter that is absent or
unparseable is `none`. -/
structure Cmd where
  kind : CmdKind
  line : String
  ctype : Option String := none
  tags : List String := []
  n : Option Nat := none
  s : Option Nat := none
  t : Option Nat := none
  z : Option Nat := none
  p : Option Nat := none
  r : Option Nat := none
  tool : Option Nat := none
  deriving DecidableEq, Repr

/-- Whether the command is a `GcodeCommand` (`isinstance(command, GcodeCommand)`). -/
def Cmd.isGcode (c : Cmd) : Bool :=
  match c.kind with
  | .gcode _ => true
  | _ => false

/-- Whether the command is an `AtCommand` (`isinstance(command, AtCommand)`). -/
def Cmd.isAt (c : Cmd) : Bool :=
  match c.kind with
  | .at _ => true
  | _ => false

/-- The G-code code token of the command, if it is a G-code (`command.code`). -/
def Cmd.codeOf (c : Cmd) : Option String :=
  match c.kind with
  | .gcode code => some code
  | _ => none

/-- The at-command name, if the command is an at-command (`command.atcommand`). -/
def Cmd.atName (c : Cmd) : Option String :=
  match c.kind with
  | .at name => some name
  | _ => none

/-- The policy flags of a firmware flavor consumed by the send loop
(src lines 1069-1095).  The flavor table itself is data outside the given
source (spec section 4.F); the embedding keeps these flags as an input. -/
structure FlavorFlags where
  checksum_requiring_commands : List String
  unknown_with_checksum : Bool
  always_send_checksum : Bool
  never_send_checksum : Bool
  unknown_requires_ack : Bool
  long_running_commands : List String
  deriving DecidableEq, Repr

/-! ### Wire format (src lines 1219-1251) -/

/-- ASCII bytes of the decimal representation of a natural number
(Python `str(n)` for a non-negative integer). -/
def natDecimalBytes (n : Nat) : List Nat :=
  if n = 0 then [48] else ((Nat.digits 10 n).map (fun d => d + 48)).reverse

/-- Value of a string of ASCII decimal digit bytes (inverse of
`natDecimalBytes`; used only to state the checksum claim). -/
def parseDec (bs : List Nat) : Nat :=
  Nat.ofDigits 10 ((bs.map (fun b => b - 48)).reverse)

/-- XOR-fold over the bytes of a line: `checksum = 0; for c in
bytearray(command_to_send): checksum ^= c` (src lines 1237-1239). -/
def xorBytes (bs : List Nat) : Nat :=
  bs.foldl Nat.xor 0

/-- `_do_send_without_checksum` (src lines 1243-1248): writes
`data + b"\n"`.  The pure version returns the bytes written. -/
def do_send_without_checksum (data : List Nat) : List Nat :=
  data ++ [10]

/-- `_do_send_with_checksum` (src lines 1230-1241) as a pure byte-builder:
`command_to_send = b"N" + str(line_number) + b" " + line`, checksum is the
XOR-fold of its bytes, and `command_to_send + b"*" + str(checksum)` is
passed to `_do_send_without_checksum`.  Byte 78 is `N`, 32 is the space,
42 is `*`, 10 is the line feed. -/
def do_send_with_checksum (line : List Nat) (line_number : Nat) : List Nat :=
  let command_to_send := [78] ++ natDecimalBytes line_number ++ [32] ++ line
  let checksum := xorBytes command_to_send
  do_send_without_checksum (command_to_send ++ [42] ++ natDecimalBytes checksum)

/-- ASCII bytes of a string (the embedding uses it to turn command text into
wire bytes; the Python code calls `line.encode("ascii", errors="replace")`). -/
def strBytes (s : String) : List Nat :=
  s.data.map Char.toNat

/-! ### Checksum policy of the send loop (src lines 1069-1079) -/

/-- The checksum decision taken by `_send_loop` for a non-resend command
(src lines 1069-1079): if the transport does not declare message integrity,
`command_requiring_checksum`, `command_allowing_checksum` and
`checksum_enabled` are computed and combined; otherwise no checksum is sent. -/
def send_loop_checksum_decision (message_integrity : Bool) (flavor : FlavorFlags)
    (state : ProtocolState) (command : Cmd) : Bool :=
  if message_integrity = false then
    let command_requiring_checksum :=
      command.isGcode &&
        (match command.codeOf with
         | some code => flavor.checksum_requiring_commands.contains code
         | none => false)
    let command_allowing_checksum := command.isGcode || flavor.unknown_with_checksum
    let checksum_enabled :=
      flavor.always_send_checksum ||
        (decide (state = ProtocolState.PROCESSING) && !flavor.never_send_checksum)
    command_requiring_checksum || (command_allowing_checksum && checksum_enabled)
  else
    false

/-- The checksum policy as worded by the claim: raw when the transport
declares message integrity, else checksummed iff `requires_checksum` or
(`allows_checksum` and `enabled`), with `requires_checksum` iff the command
is a G-code whose code is in `flavor.checksum_requiring_commands`,
`allows_checksum` iff it is a G-code or `flavor.unknown_with_checksum`, and
`enabled` iff `flavor.always_send_checksum` or (state is `PROCESSING` and
not `flavor.never_send_checksum`). -/
def checksum_policy_spec (message_integrity : Bool) (flavor : FlavorFlags)
    (state : ProtocolState) (command : Cmd) : Bool :=
  if message_integrity then
    false
  else
    let requires_checksum :=
      command.isGcode &&
        (match command.codeOf with
         | some code => flavor.checksum_requiring_commands.contains code
         | none => false)
    let allows_checksum := command.isGcode || flavor.unknown_with_checksum
    let enabled :=
      flavor.always_send_checksum ||
        (decide (state = ProtocolState.PROCESSING) && !flavor.never_send_checksum)
    requires_checksum || (allows_checksum && enabled)

/-! ### Collaborator containers (modelled from the spec where not in src) -/

/-- An entry of the send queue: `(command, linenumber, on_sent, processed)`
as enqueued by `_enqueue_for_sending` (src line 993).  Callbacks are
abstracted to opaque identifiers (`Option Nat`). -/
structure SendEntry where
  command : Cmd
  linenumber : Option Nat
  on_sent : Option Nat
  processed : Bool
  deriving DecidableEq, Repr

/-- A Python exception the embedding needs to model. -/
inductive PyErr
  | typeError
  deriving DecidableEq, Repr

/-- The internal-state record of `ReprapGcodeProtocol` (src lines 129-210)
together with the protocol state of the base class and the queue contents.
`written` accumulates the byte lines given to `self._transport.write`;
`cancelled_error` records that `cancel_processing(error=True)` ran
(the base class is not in the given source; spec section 4.J);
`pause_requests` counts invocations of `pause_processing`;
`now` abstracts `monotonic_time()`.  The source writes two distinct
dictionary keys `heating_start` (src 134, read by `_finish_heatup`) and
`heatup_start` (src 706, 1334, 1340, 1346, never read); both are kept. -/
structure PState where
  proto : ProtocolState
  current_linenumber : Nat
  last_lines : List (Nat × List Nat)
  resend_requested : Option Nat
  resend_linenumber : Option Nat
  resend_count : Nat
  long_running_command : Bool
  heating : Bool
  heating_start : Option Nat
  heatup_start : Option Nat
  heating_lost : Nat
  ignore_ok : Nat
  current_tool : Nat
  former_tool : Option Nat
  current_z : Option Nat
  temperatures : List (String × (Option Nat × Option Nat))
  temperature_autoreporting : Bool
  sd_status_autoreporting : Bool
  firmware_capabilities : List (String × Bool)
  only_from_job : Bool
  trigger_events : Bool
  timeout_deadline : Nat
  timeout_consecutive : Nat
  timeout_communication : Nat
  now : Nat
  last_communication_error : Option String
  command_queue : List ((Cmd × Option Nat) × Option String)
  send_queue_send : List (SendEntry × Option String)
  send_queue_resend : List (SendEntry × Option String)
  resend_active : Bool
  clear_to_send : Nat
  send_queue_active : Bool
  transport_active : Bool
  job_lines : List String
  job_present : Bool
  job_active : Bool
  job_runs_parallel : Bool
  job_is_sd : Bool
  job_is_stream : Bool
  job_pos : Nat
  cancelled_error : Bool
  pause_requests : Nat
  resume_requests : Nat
  log_resends : Bool
  log_resends_rate_start : Option Nat
  log_resends_rate_count : Nat
  written : List (List Nat)
  deriving DecidableEq, Repr

/-- Modelled from the spec: `CountedEvent.set` (octoprint.util, not in the
given source; spec section 4.E): increment the clear-to-send credit,
saturating at the maximum, which is 10 (`CountedEvent(max=10)`, src
line 176). -/
def cts_set (st : PState) : PState :=
  { st with clear_to_send := min (st.clear_to_send + 1) 10 }

/-- Modelled from the spec: `CountedEvent.clear` (octoprint.util, not in the
given source; spec section 4.E): decrement the credit, floor 0. -/
def cts_clear (st : PState) : PState :=
  { st with clear_to_send := st.clear_to_send - 1 }

/-- Modelled from the spec: `CountedEvent.blocked` (octoprint.util, not in
the given source; spec section 4.E): true iff the credit count is zero. -/
def cts_blocked (st : PState) : Bool :=
  st.clear_to_send = 0

/-- Modelled from the spec: `LineHistory.append` (…reprap.util, not in the
given source; spec section 4.B): bounded mapping of capacity 50 from line
number to bytes; eviction discards the oldest entry when full. -/
def historyAppend (h : List (Nat × List Nat)) (line_number : Nat) (bs : List Nat) :
    List (Nat × List Nat) :=
  let h2 := h ++ [(line_number, bs)]
  if 50 < h2.length then h2.drop (h2.length - 50) else h2

/-- Modelled from the spec: membership test of `LineHistory`
(`linenumber in self._last_lines`, src line 639). -/
def historyContains (h : List (Nat × List Nat)) (line_number : Nat) : Bool :=
  h.any (fun e => e.1 = line_number)

/-- Modelled from the spec: keyed lookup of `LineHistory`
(`self._last_lines[linenumber]`, src line 827); `none` is the `KeyError`
case.  A `none` key (possible Python value of `resend_linenumber`) also
raises `KeyError` and yields `none`. -/
def historyGet (h : List (Nat × List Nat)) (line_number : Option Nat) :
    Option (List Nat) :=
  match line_number with
  | none => none
  | some n => (h.find? (fun e => e.1 = n)).map (fun e => e.2)

/-- Modelled from the spec: `TypedQueue.put` of the command queue
(octoprint.util, not in the given source; spec section 4.D): FIFO append
with type-dedup — if `item_type` is already carried by a queued entry the
put fails (`TypeAlreadyInQueue`), reported here as `none`. -/
def cq_put (q : List ((Cmd × Option Nat) × Option String))
    (payload : Cmd × Option Nat) (item_type : Option String) :
    Option (List ((Cmd × Option Nat) × Option String)) :=
  match item_type with
  | some t => if q.any (fun e => e.2 = some t) then none else some (q ++ [(payload, some t)])
  | none => some (q ++ [(payload, none)])

/-- Modelled from the spec: `SendQueue.put` (…reprap.util, not in the given
source; spec section 4.C): two-track FIFO with per-track type-dedup; `target`
selects the `send` or `resend` track.  Returns the two tracks, or `none` on
a dedup failure. -/
def sq_put (send resend : List (SendEntry × Option String))
    (entry : SendEntry) (item_type : Option String) (target : String) :
    Option (List (SendEntry × Option String) × List (SendEntry × Option String)) :=
  if target = "resend" then
    match item_type with
    | some t =>
        if resend.any (fun e => e.2 = some t) then none
        else some (send, resend ++ [(entry, some t)])
    | none => some (send, resend ++ [(entry, none)])
  else
    match item_type with
    | some t =>
        if send.any (fun e => e.2 = some t) then none
        else some (send ++ [(entry, some t)], resend)
    | none => some (send ++ [(entry, none)], resend)

/-! ### Base-class state predicates and job transitions -/

/-- `_is_operational` (src lines 354-355). -/
def is_operational (st : PState) : Bool :=
  !(st.proto = ProtocolState.DISCONNECTED || st.proto = ProtocolState.DISCONNECTED_WITH_ERROR)

/-- `_is_busy` (src lines 357-358). -/
def is_busy (st : PState) : Bool :=
  st.proto = ProtocolState.PROCESSING || st.proto = ProtocolState.PAUSED

/-- `_is_streaming` (src lines 360-362): busy with a `LocalGcodeStreamjob`. -/
def is_streaming (st : PState) : Bool :=
  is_busy st && st.job_present && st.job_is_stream

/-- `self._active` (src lines 212-214): transport present and active, and
the send queue active. -/
def engine_active (st : PState) : Bool :=
  st.transport_active && st.send_queue_active

/-- Modelled from the spec: `cancel_processing` of the `Protocol` base class
(not in the given source; spec section 4.J says processing moves to
`CANCELLING`).  The embedding also records that a cancel with error was
requested. -/
def cancel_processing (st : PState) (error : Bool) : PState :=
  { st with
    proto := if is_busy st then ProtocolState.CANCELLING else st.proto,
    cancelled_error := st.cancelled_error || error }

/-- Modelled from the spec: `pause_processing` of the `Protocol` base class
(not in the given source; spec section 4.J). -/
def pause_processing (st : PState) : PState :=
  { st with
    proto := if st.proto = ProtocolState.PROCESSING then ProtocolState.PAUSING else st.proto,
    pause_requests := st.pause_requests + 1 }

/-- Modelled from the spec: `resume_processing` of the `Protocol` base class
(not in the given source; spec section 4.J). -/
def resume_processing (st : PState) : PState :=
  { st with
    proto := if st.proto = ProtocolState.PAUSED then ProtocolState.RESUMING else st.proto,
    resume_requests := st.resume_requests + 1 }

/-! ### Stateful wire senders (src lines 1219-1251) -/

/-- `_do_send_without_checksum` (src lines 1243-1248) acting on the engine
state: appends the written byte line (`data + b"\n"`). -/
def do_send_without_checksum_st (st : PState) (data : List Nat) : PState :=
  { st with written := st.written ++ [do_send_without_checksum data] }

/-- `_do_send_with_checksum` (src lines 1230-1241) acting on the engine
state.  The Python signature requires both `line` and `line_number` with no
default, so a call that omits `line_number` (as `_gcode_M112_queuing` does,
src line 1372) raises `TypeError`; the omitted argument is modelled as
`none`. -/
def do_send_with_checksum_st (st : PState) (line : List Nat) (line_number : Option Nat) :
    Except PyErr PState :=
  match line_number with
  | none => .error .typeError
  | some n => .ok { st with written := st.written ++ [do_send_with_checksum line n] }

/-- `_add_to_last_lines` (src lines 1250-1251). -/
def add_to_last_lines (st : PState) (command : List Nat) (line_number : Nat) : PState :=
  { st with last_lines := historyAppend st.last_lines line_number command }

/-- `_do_increment_and_send_with_checksum` (src lines 1219-1228): under the
line mutex, record the line in history at the current line number, increment
the line number, then send with checksum at the recorded number. -/
def do_increment_and_send_with_checksum (st : PState) (line : List Nat) : PState :=
  let line_number := st.current_linenumber
  let st := add_to_last_lines st line line_number
  let st := { st with current_linenumber := st.current_linenumber + 1 }
  { st with written := st.written ++ [do_send_with_checksum line line_number] }

/-! ### Helpers used by the G-code handlers -/

/-- `_finish_heatup` (src lines 773-778). -/
def finish_heatup (st : PState) : PState :=
  if st.heating then
    let st :=
      match st.heating_start with
      | some hs => { st with heating_lost := st.heating_lost + (st.now - hs), heating_start := none }
      | none => st
    { st with heating := false }
  else st

/-- Update of the keyed temperatures map (`temperatures[tool] = (actual,
target)` in `_set_temperature`). -/
def assocSet (l : List (String × (Option Nat × Option Nat))) (k : String)
    (v : Option Nat × Option Nat) : List (String × (Option Nat × Option Nat)) :=
  if l.any (fun e => e.1 = k) then l.map (fun e => if e.1 = k then (k, v) else e)
  else l ++ [(k, v)]

/-- `_set_temperature` (src lines 1464-1470): a `none` half keeps the stored
half for the tool. -/
def set_temperature (st : PState) (tool : String) (actual target : Option Nat) : PState :=
  let cur := st.temperatures.find? (fun e => e.1 = tool)
  let actual := match actual, cur with
    | none, some e => e.2.1
    | a, _ => a
  let target := match target, cur with
    | none, some e => e.2.2
    | tg, _ => tg
  { st with temperatures := assocSet st.temperatures tool (actual, target) }

/-- Lookup in `self._internal_state["firmware_capabilities"]` with default
`False` (`.get(cap, False)`). -/
def capability (st : PState) (cap : String) : Bool :=
  match st.firmware_capabilities.find? (fun e => e.1 = cap) with
  | some e => e.2
  | none => false

/-! ### G-code handlers of the `sending` and `sent` phases
(src lines 1255-1263, 1284-1348, 1350-1368, 1405-1412) -/

/-- `_gcode_T_sent` (src lines 1255-1257): a present tool parameter (a
non-empty parameter string is truthy in Python, including `"0"`) selects the
current tool. -/
def gcode_T_sent (cmd : Cmd) (st : PState) : PState :=
  match cmd.tool with
  | some t => { st with current_tool := t }
  | none => st

/-- `_gcode_G0_sent` = `_gcode_G1_sent` (src lines 1259-1263): a changed `Z`
parameter updates the tracked Z position. -/
def gcode_G0_sent (cmd : Cmd) (st : PState) : PState :=
  match cmd.z with
  | some z => if st.current_z ≠ some z then { st with current_z := some z } else st
  | none => st

/-- `_gcode_M155_sending` (src lines 1284-1291): records whether temperature
autoreporting is active; an unparseable interval leaves the state unchanged
(`except: pass`). -/
def gcode_M155_sending (cmd : Cmd) (st : PState) : PState :=
  match cmd.s with
  | none => st
  | some interval =>
      { st with temperature_autoreporting :=
          capability st "AUTOREPORT_TEMP" && decide (0 < interval) }

/-- `_gcode_M27_sending` (src lines 1293-1300). -/
def gcode_M27_sending (cmd : Cmd) (st : PState) : PState :=
  match cmd.s with
  | none => st
  | some interval =>
      { st with sd_status_autoreporting :=
          capability st "AUTOREPORT_SD_STATUS" && decide (0 < interval) }

/-- `_gcode_M104_sent` (src lines 1302-1320): with `wait` the current tool is
stashed into `former_tool` and replaced by the commanded tool; a non-zero
target (Python `if target:` is false for `0.0`) updates the tool
temperature. -/
def gcode_M104_sent (cmd : Cmd) (wait support_r : Bool) (st : PState) : PState :=
  let tool_num := match cmd.t with
    | some tv => tv
    | none => st.current_tool
  let st :=
    match cmd.t with
    | some tv =>
        if wait then { st with former_tool := some st.current_tool, current_tool := tv } else st
    | none => st
  let target := match cmd.s with
    | some sv => some sv
    | none => if support_r then cmd.r else none
  match target with
  | some tv =>
      if tv ≠ 0 then set_temperature st (String.append "tool" (toString tool_num)) none (some tv)
      else st
  | none => st

/-- `_gcode_M140_sent` (src lines 1322-1331). -/
def gcode_M140_sent (cmd : Cmd) (wait support_r : Bool) (st : PState) : PState :=
  let _ := wait
  let target := match cmd.s with
    | some sv => some sv
    | none => if support_r then cmd.r else none
  match target with
  | some tv =>
      if tv ≠ 0 then set_temperature st "bed" none (some tv)
      else st
  | none => st

/-- `_gcode_M109_sent` (src lines 1333-1337): note the written key is
`heatup_start`, not the `heating_start` read by `_finish_heatup`. -/
def gcode_M109_sent (cmd : Cmd) (st : PState) : PState :=
  let st := { st with heatup_start := some st.now, long_running_command := true, heating := true }
  gcode_M104_sent cmd true true st

/-- `_gcode_M190_sent` (src lines 1339-1343). -/
def gcode_M190_sent (cmd : Cmd) (st : PState) : PState :=
  let st := { st with heatup_start := some st.now, long_running_command := true, heating := true }
  gcode_M140_sent cmd true true st

/-- `_gcode_M116_sent` (src lines 1345-1348). -/
def gcode_M116_sent (st : PState) : PState :=
  { st with heatup_start := some st.now, long_running_command := true, heating := true }

/-- `_gcode_M110_sending` (src lines 1350-1368): sets the current line
number to the commanded `N` value (0 when no `N` parameter is given), clears
the line history and the resend cursor (`resend_linenumber`).  An
unparseable `N` parameter is modelled as absent; in Python it would leave
`new_line_number = None` and store that into the line counter. -/
def gcode_M110_sending (cmd : Cmd) (st : PState) : PState :=
  let new_line_number := match cmd.n with
    | some k => k
    | none => 0
  { st with
    current_linenumber := new_line_number,
    last_lines := [],
    resend_linenumber := none }

/-- `_gcode_G4_sent` (src lines 1405-1412): a dwell extends the
communication deadline; the millisecond `P` value is scaled to seconds
(truncating division models the float arithmetic). -/
def gcode_G4_sent (cmd : Cmd) (st : PState) : PState :=
  let timeout := match cmd.p with
    | some p => p / 1000
    | none => match cmd.s with
      | some s => s
      | none => 0
  { st with timeout_deadline := st.now + st.timeout_communication + timeout }

/-! ### Phase pipeline (src lines 1123-1215) -/

/-- Result shape of a built-in G-code handler: Python `None` keeps the
original command, the `None,` 1-tuple drops it, and a returned command or
list replaces it. -/
inductive HandlerResult
  | noChange
  | drop
  | replace (cs : List Cmd)
  deriving DecidableEq, Repr

/-- Modelled from the spec: `normalize_command_handler_result`
(…reprap.util, not in the given source; spec section 4.G): pass-through for
`None`, empty for an explicit drop, the replacement commands otherwise. -/
def normalize_command_handler_result (cmd : Cmd) : HandlerResult → List Cmd
  | .noChange => [cmd]
  | .drop => []
  | .replace cs => cs

/-- Dispatch table lookup and invocation of the built-in
`_gcode_<code>_<phase>` handlers reachable from `_process_command_phase`
(src lines 1164-1177).  The handlers of the `queuing` phase
(`_gcode_M0_queuing`, `_gcode_M1_queuing`, `_gcode_M25_queuing`,
`_gcode_M140_queuing`, `_gcode_M190_queuing`, `_gcode_M112_queuing`) are
defined separately below: the phase guard of `_process_command_phase`
(src line 1129) compares against the misspelled `"queueing"`, so a call with
the real phase name `"queuing"` returns before this dispatch and those
handlers are unreachable here. -/
def run_gcode_handler (phase : String) (cmd : Cmd) (st : PState) :
    Option (PState × HandlerResult) :=
  if phase = "sending" then
    match cmd.codeOf with
    | some "M110" => some (gcode_M110_sending cmd st, .noChange)
    | some "M155" => some (gcode_M155_sending cmd st, .noChange)
    | some "M27" => some (gcode_M27_sending cmd st, .noChange)
    | _ => none
  else if phase = "sent" then
    match cmd.codeOf with
    | some "T" => some (gcode_T_sent cmd st, .noChange)
    | some "G0" => some (gcode_G0_sent cmd st, .noChange)
    | some "G1" => some (gcode_G0_sent cmd st, .noChange)
    | some "M104" => some (gcode_M104_sent cmd false false st, .noChange)
    | some "M140" => some (gcode_M140_sent cmd false false st, .noChange)
    | some "M109" => some (gcode_M109_sent cmd st, .noChange)
    | some "M190" => some (gcode_M190_sent cmd st, .noChange)
    | some "M116" => some (gcode_M116_sent st, .noChange)
    | some "G4" => some (gcode_G4_sent cmd st, .noChange)
    | _ => none
  else none

/-- The registered handler keys of `self._handlers_gcode` (src line 122
collects every `_gcode_*` attribute; the handler methods are at src lines
1255-1412).  Pairs are `(code, phase)`. -/
def gcode_handler_names : List (String × String) :=
  [("T", "sent"), ("G0", "sent"), ("G1", "sent"),
   ("M0", "queuing"), ("M1", "queuing"), ("M25", "queuing"),
   ("M140", "queuing"), ("M190", "queuing"),
   ("M155", "sending"), ("M27", "sending"),
   ("M104", "sent"), ("M140", "sent"), ("M109", "sent"), ("M190", "sent"),
   ("M116", "sent"), ("M110", "sending"), ("M112", "queuing"), ("G4", "sent")]

/-- Whether `"_gcode_" + code + "_" + phase` is a registered handler. -/
def has_gcode_handler (code phase : String) : Bool :=
  gcode_handler_names.contains (code, phase)

/-- `_process_command_phase` (src lines 1123-1196).  No plugin hooks are
registered (src lines 183-186 initialize empty hook tables), so the hook
loop is a no-op.  The phase guard (src line 1129) admits only `"queueing"`
(a misspelling of the phase name used by every caller), `"queued"`,
`"sending"` and `"sent"`; any other phase — including the real `"queuing"` —
returns the command unchanged.  The final `_command_phase_<phase>` step only
exists for `sending` (src lines 1440-1442) and is invoked as
`handler(command)`, leaving its `gcode` parameter `None`, hence a no-op. -/
def process_command_phase (phase : String) (cmd : Cmd) (st : PState) :
    List Cmd × PState :=
  if phase = "queueing" ∨ phase = "queued" ∨ phase = "sending" ∨ phase = "sent" then
    if cmd.isGcode then
      match run_gcode_handler phase cmd st with
      | some (st', hr) =>
          let new_results := normalize_command_handler_result cmd hr
          if new_results = [] then ([], st') else (new_results, st')
      | none => ([cmd], st)
    else ([cmd], st)
  else
    ([cmd], st)

/-- `_process_atcommand_phase` (src lines 1198-1215): skipped while
streaming or for phases other than `queuing`/`sending`; no plugin hooks are
registered; the built-in at-command handlers (src lines 1416-1436) exist
only for the `queuing` phase and trigger job transitions unless the command
is tagged as arising from the corresponding script. -/
def process_atcommand_phase (phase : String) (cmd : Cmd) (st : PState) : PState :=
  if is_streaming st ∨ ¬(phase = "queuing" ∨ phase = "sending") then st
  else if phase = "queuing" then
    match cmd.atName with
    | some "pause" =>
        if cmd.tags.contains "script:afterPrintPaused" then st else pause_processing st
    | some "cancel" =>
        if cmd.tags.contains "script:afterPrintCancelled" then st else cancel_processing st false
    | some "abort" =>
        if cmd.tags.contains "script:afterPrintCancelled" then st else cancel_processing st false
    | some "resume" =>
        if cmd.tags.contains "script:beforePrintResumed" then st else resume_processing st
    | _ => st
  else st

/-! ### Admission (src lines 875-997) -/

/-- `_enqueue_for_sending` (src lines 976-997): put on the send queue with
the command type as dedup bucket, target `resend` or `send`; a
`TypeAlreadyInQueue` is swallowed and reported as `False`. -/
def enqueue_for_sending (st : PState) (command : Cmd) (linenumber : Option Nat)
    (on_sent : Option Nat) (processed : Bool) (resend : Bool) : Bool × PState :=
  let target := if resend then "resend" else "send"
  match sq_put st.send_queue_send st.send_queue_resend
      { command := command, linenumber := linenumber, on_sent := on_sent, processed := processed }
      command.ctype target with
  | some (s, r) => (true, { st with send_queue_send := s, send_queue_resend := r })
  | none => (false, st)

/-- The `process` helper inside `_send_command` (src lines 932-953): run the
at-command `queuing` phase for at-commands, enqueue for sending, and — when
not streaming — run the `queued` phase (the `GCODE_TO_EVENT` firing at src
lines 947-950 is commented out). -/
def send_command_process_one (st : PState) (command : Cmd) (on_sent : Option Nat) :
    Bool × PState :=
  let st := if command.isAt then process_atcommand_phase "queuing" command st else st
  match enqueue_for_sending st command none on_sent false false with
  | (true, st) =>
      let st := if is_streaming st then st else (process_command_phase "queued" command st).2
      (true, st)
  | (false, st) => (false, st)

/-- The split-and-fold over the `queuing` results in `_send_command`
(src lines 955-974): all but the last command are processed without the
`on_sent` callback, the last one with it, success OR-accumulated. -/
def send_command_results : PState → List Cmd → Option Nat → Bool × PState
  | st, [], _ => (false, st)
  | st, [c], on_sent => send_command_process_one st c on_sent
  | st, c :: c2 :: rest, on_sent =>
      let r1 := send_command_process_one st c none
      let r2 := send_command_results r1.2 (c2 :: rest) on_sent
      (r1.1 || r2.1, r2.2)

/-- `_send_command` (src lines 917-974).  The `command_type`/`tags`
arguments only feed the `to_command` conversion of raw input, which callers
of the embedding perform beforehand. -/
def send_command (st : PState) (command : Cmd) (on_sent : Option Nat) : Bool × PState :=
  let pr :=
    if st.trigger_events then process_command_phase "queuing" command st
    else ([command], st)
  match pr with
  | ([], st) => (false, st)
  | (results, st) => send_command_results st results on_sent

/-- The fold inside `_send_commands` (src lines 908-915). -/
def send_commands_list : List Cmd → PState → Bool → Bool × PState
  | [], st, acc => (acc, st)
  | c :: rest, st, acc =>
      let r := send_command st c none
      send_commands_list rest r.2 (r.1 || acc)

/-- `_send_commands` (src lines 908-915): sends each command through
`_send_command`; the `command_type` argument only affects the conversion of
raw lines and is dropped for command inputs. -/
def send_commands_internal (st : PState) (commands : List Cmd) : Bool × PState :=
  send_commands_list commands st false

/-- Modelled from the spec: `flavor.command_sd_pause()` (the flavor table is
not in the given source); the SD pause command of the RepRap dialect is
`M25`. -/
def command_sd_pause : Cmd :=
  { kind := .gcode "M25", line := "M25" }

/-- `pause_file_print` (src lines 308-309): sends the flavor SD pause
command. -/
def pause_file_print (st : PState) : PState :=
  (send_commands_internal st [command_sd_pause]).2

/-! ### G-code handlers of the `queuing` phase (src lines 1265-1282,
1370-1403).  These are registered in `self._handlers_gcode` but unreachable
through `_process_command_phase` (see `run_gcode_handler`). -/

/-- `_gcode_M0_queuing` (src lines 1265-1267): pauses the file print and
returns the `None,` 1-tuple so that M0 is not sent to the machine. -/
def gcode_M0_queuing (st : PState) : PState × HandlerResult :=
  (pause_file_print st, .drop)

/-- `_gcode_M1_queuing = _gcode_M0_queuing` (src line 1268). -/
def gcode_M1_queuing (st : PState) : PState × HandlerResult :=
  gcode_M0_queuing st

/-- `_gcode_M25_queuing` (src lines 1270-1274): an M25 while printing a
non-SD job additionally pauses the job; the command is still sent. -/
def gcode_M25_queuing (st : PState) : PState × HandlerResult :=
  if st.proto = ProtocolState.PROCESSING ∧ ¬(st.job_present ∧ st.job_is_sd) then
    (pause_file_print st, .noChange)
  else (st, .noChange)

/-- `_gcode_M140_queuing` = `_gcode_M190_queuing` (src lines 1276-1282):
body commented out, no effect. -/
def gcode_M140_queuing (st : PState) : PState × HandlerResult :=
  (st, .noChange)

/-- Modelled from the spec: `flavor.command_emergency_stop()` — `M112`. -/
def command_emergency_stop : Cmd :=
  { kind := .gcode "M112", line := "M112" }

/-- `_gcode_M112_queuing` (src lines 1370-1403): jumps the queue with the
emergency stop.  The first write calls `_do_send_with_checksum` with a
single argument although the signature (src line 1230) requires
`line_number`, so the call raises `TypeError` before anything reaches the
transport.  The rest of the handler is written for the hypothetical success
case: the second, incrementing send; then the heater shutdown and the
connection close, both of which are commented out in the source
(src lines 1381-1399); finally the handler returns the `None,` 1-tuple. -/
def gcode_M112_queuing (st : PState) : Except PyErr (PState × HandlerResult) :=
  match do_send_with_checksum_st st (strBytes command_emergency_stop.line) none with
  | .error e => .error e
  | .ok st1 =>
      .ok (do_increment_and_send_with_checksum st1 (strBytes command_emergency_stop.line), .drop)

/-! ### Queue draining and the continue-sending routine (src lines 782-906) -/

/-- The loop body of `_send_from_queue` (src lines 875-906), driven by fuel
bounding the number of iterations (each iteration pops one entry, so the
queue length suffices).  An entry is the `(command, on_sent)` pair enqueued
by `send_commands` (src line 344); the loop demands tuples of length 3
(src lines 891-894), treats anything else as broken and fetches the next
entry, and would then unpack the entry into two variables (src line 896) —
so a pair is always discarded here, and an actual triple would raise
`ValueError` at the unpacking. -/
def send_from_queue_go : Nat → PState → Bool × PState
  | 0, st => (false, st)
  | fuel + 1, st =>
      if st.only_from_job then (false, st)
      else
        match st.command_queue with
        | [] => (false, st)
        | entry :: rest =>
            let st1 := { st with command_queue := rest }
            if (2 : Nat) = 3 then
              -- unreachable for pair entries; models src lines 896-906
              let r := send_command st1 entry.1.1 entry.1.2
              if r.1 then (true, r.2) else send_from_queue_go fuel r.2
            else
              send_from_queue_go fuel st1

/-- `_send_from_queue` (src lines 875-906). -/
def send_from_queue (st : PState) : Bool × PState :=
  send_from_queue_go (st.command_queue.length + 1) st

/-- Modelled from the spec: `job.get_next()` of the job contract (spec
section 6; the job classes are not in the given source): yields the next
line, advancing the position accessors. -/
def job_get_next (st : PState) : Option String × PState :=
  match st.job_lines with
  | [] => (none, st)
  | l :: rest => (some l, { st with job_lines := rest, job_pos := st.job_pos + 1 })

/-- Modelled from the spec: the `to_command` factory (commands module not in
the given source; spec section 4.A): a leading `@` makes an at-command, a
leading `G`/`M` token with digits a G-code with that token as code, a `T`
token a tool-select G-code with code `T`; anything else a generic line.
Parameter extraction is not needed by the claims and the parameter fields
stay `none`. -/
def to_command (line : String) (ctype : Option String) (tags : List String) : Cmd :=
  match line.data with
  | '@' :: rest =>
      { kind := .at (String.mk (rest.takeWhile (fun c => c ≠ ' '))), line := line,
        ctype := ctype, tags := tags }
  | cs =>
      let tok := cs.takeWhile (fun c => c ≠ ' ')
      if 2 ≤ tok.length ∧ (tok.head? = some 'G' ∨ tok.head? = some 'M') ∧
          (tok.drop 1).all Char.isDigit then
        { kind := .gcode (String.mk tok), line := line, ctype := ctype, tags := tags }
      else if 2 ≤ tok.length ∧ tok.head? = some 'T' ∧ (tok.drop 1).all Char.isDigit then
        { kind := .gcode "T", line := line, ctype := ctype, tags := tags }
      else
        { kind := .generic, line := line, ctype := ctype, tags := tags }

/-- The loop body of `_send_next_from_job` (src lines 844-873), driven by
fuel (each iteration consumes one job line). -/
def send_next_from_job_go : Nat → PState → Bool × PState
  | 0, st => (false, st)
  | fuel + 1, st =>
      if engine_active st then
        if st.proto = ProtocolState.PROCESSING then
          match job_get_next st with
          | (none, st) => (false, st)
          | (some line, st) =>
              let command := to_command line none ["source:file"]
              let r := send_command st command none
              if r.1 then (true, r.2) else send_next_from_job_go fuel r.2
        else (false, st)
      else (false, st)

/-- `_send_next_from_job` (src lines 844-873). -/
def send_next_from_job (st : PState) : Bool × PState :=
  send_next_from_job_go (st.job_lines.length + 1) st

/-- The loop body of `_continue_sending` (src lines 782-803), driven by
fuel.  The Python `while self._active` loop spins when printing and neither
the command queue nor the job yields a line; the fuel bounds the modelled
number of iterations. -/
def continue_sending_go : Nat → PState → Bool × PState
  | 0, st => (false, st)
  | fuel + 1, st =>
      if engine_active st then
        if st.proto = ProtocolState.PROCESSING ∧
            (st.job_present ∧ st.job_active ∧ ¬ st.job_is_sd) then
          let rq := send_from_queue st
          if rq.1 then (true, rq.2)
          else
            let rj := send_next_from_job rq.2
            if rj.1 then (true, rj.2)
            else continue_sending_go fuel rj.2
        else
          send_from_queue st
      else (false, st)

/-- `_continue_sending` (src lines 782-803). -/
def continue_sending (st : PState) : Bool × PState :=
  continue_sending_go (st.command_queue.length + st.job_lines.length + 2) st

/-! ### Resend servicing (src lines 805-842) -/

/-- Bytes wrapped back into a generic `Command(command)` for a resend entry
(src line 832). -/
def bytesToString (bs : List Nat) : String :=
  String.mk (bs.map Char.ofNat)

/-- `_send_next_from_resend` (src lines 805-842): with `again` the cursor is
first moved back one line (initialized from `current_line` when absent); the
history line at the cursor is enqueued on the resend track byte-identical
(`processed=True`); the cursor advances and reaching `current_line` closes
the resend window.  A missing history line is the `KeyError` path returning
`False`. -/
def send_next_from_resend (st : PState) (again : Bool) : Bool × PState :=
  let st := { st with last_communication_error := none }
  let st :=
    if again then
      let base := match st.resend_linenumber with
        | some v => v
        | none => st.current_linenumber
      { st with resend_linenumber := some (base - 1) }
    else st
  match historyGet st.last_lines st.resend_linenumber with
  | none => (false, st)
  | some command =>
      match st.resend_linenumber with
      | none => (false, st)
      | some linenumber =>
          let r := enqueue_for_sending st
              { kind := .generic, line := bytesToString command } (some linenumber) none true true
          let st := r.2
          let st := { st with resend_linenumber := some (linenumber + 1) }
          let st :=
            if linenumber + 1 = st.current_linenumber then
              { st with resend_requested := none, resend_linenumber := none,
                        resend_count := 0, resend_active := false }
            else st
          (r.1, st)

/-- `_send_same_from_resend` (src lines 805-806). -/
def send_same_from_resend (st : PState) : Bool × PState :=
  send_next_from_resend st true

/-! ### Receive-side handlers (src lines 504-668) -/

/-- `_on_comm_ok` (src lines 570-602).  `if self._internal_state["former_tool"]:`
is a truthiness test: it fires only for a stashed tool different from 0 (the
field starts as the integer 0, src line 141).  The entry actions of the
`CONNECTED` state (src lines 373-394) run via the base-class state setter
outside the given source and are not needed by the claims. -/
def on_comm_ok (st : PState) : PState :=
  if 0 < st.ignore_ok then
    { st with ignore_ok := st.ignore_ok - 1 }
  else if st.proto = ProtocolState.CONNECTING then
    { st with proto := ProtocolState.CONNECTED }
  else
    let st := cts_set st
    let st := { st with long_running_command := false }
    let st :=
      match st.former_tool with
      | some t => if t ≠ 0 then { st with current_tool := t, former_tool := none } else st
      | none => st
    let st := finish_heatup st
    if ¬(st.proto = ProtocolState.PROCESSING ∨ st.proto = ProtocolState.CONNECTED ∨
         st.proto = ProtocolState.PAUSED) then st
    else if st.resend_requested ≠ none then (send_next_from_resend st false).2
    else (continue_sending st).2

/-- `_on_comm_ignore_ok` (src lines 604-606). -/
def on_comm_ignore_ok (st : PState) : PState :=
  { st with ignore_ok := st.ignore_ok + 1 }

/-- `_on_comm_wait` (src lines 608-610). -/
def on_comm_wait (st : PState) : PState :=
  if st.proto = ProtocolState.PROCESSING then on_comm_ok st else st

/-- `_on_comm_start` (src lines 670-672). -/
def on_comm_start (st : PState) : PState :=
  if st.proto = ProtocolState.CONNECTING then { st with proto := ProtocolState.CONNECTED }
  else st

/-- The resend-logging rate limit inside `_on_comm_resend` (src lines
651-666): at most 5 resend log entries per 60-second window (src lines
198-202); a new window resets the counter. -/
def resend_rate_limited_log (st : PState) : PState :=
  if st.log_resends then
    let new_rate_window :=
      match st.log_resends_rate_start with
      | none => true
      | some s => decide (s + 60 < st.now)
    let in_rate := decide (st.log_resends_rate_count < 5)
    if new_rate_window || in_rate then
      let st :=
        if new_rate_window then
          { st with log_resends_rate_start := some st.now, log_resends_rate_count := 0 }
        else st
      { st with log_resends_rate_count := st.log_resends_rate_count + 1 }
    else st
  else st

/-- The fall-through assignment block of `_on_comm_resend` (src lines
647-668): store the resend request, the cursor and a zero count, apply the
rate-limited logging, and mark the queue resend-active. -/
def on_comm_resend_store (st : PState) (n : Nat) : PState :=
  let st := { st with resend_requested := some n, resend_linenumber := some n,
                      resend_count := 0 }
  let st := resend_rate_limited_log st
  { st with resend_active := true }

/-- `_on_comm_resend` (src lines 612-668).  Guards in order: a `None` line
number is ignored; a request for the current line with no outstanding resend
is ignored; a stale request matching an outstanding line-number error is
counted and ignored; a line absent from history is an error — fatal
(`cancel_processing(error=True)`) when busy, ignored otherwise — and in the
busy case the code falls through to the assignment block
`on_comm_resend_store`. -/
def on_comm_resend (st : PState) (linenumber : Option Nat) : PState :=
  match linenumber with
  | none => st
  | some n =>
      if st.resend_requested = none ∧ n = st.current_linenumber then st
      else
        let last_communication_error := st.last_communication_error
        let st := { st with last_communication_error := none }
        if last_communication_error = some "linenumber" ∧ some n = st.resend_requested ∧
            st.resend_count < st.current_linenumber - n - 1 then
          { st with resend_count := st.resend_count + 1 }
        else if historyContains st.last_lines n = false ∧ is_busy st = false then st
        else
          let st := if historyContains st.last_lines n = false then cancel_processing st true else st
          on_comm_resend_store st n

/-- `_on_comm_timeout` (src lines 511-568).  The consecutive maximum is 5
for a long-running command, 10 for `PROCESSING`/`PAUSING`/`CANCELLING`,
else 15; the counter is incremented; exceeding the maximum reaches the
give-up branch whose body is `pass` with a TODO (src lines 531-534) — so
nothing happens there; otherwise the resend / heatup / long-running /
tickle / credit branches run in order. -/
def on_comm_timeout (st : PState) : PState :=
  if ¬(st.proto = ProtocolState.PROCESSING ∨ st.proto = ProtocolState.PAUSED ∨
       st.proto = ProtocolState.CONNECTED) then st
  else
    let consecutive_max : Nat :=
      if st.long_running_command then 5
      else if st.proto = ProtocolState.PROCESSING ∨ st.proto = ProtocolState.PAUSING ∨
              st.proto = ProtocolState.CANCELLING then 10
      else 15
    let st := { st with timeout_consecutive := st.timeout_consecutive + 1 }
    if 0 < consecutive_max ∧ consecutive_max < st.timeout_consecutive then
      st
    else if st.resend_requested ≠ none then
      let r := send_same_from_resend st
      if r.1 then cts_set r.2 else r.2
    else if st.heating then
      finish_heatup st
    else if st.long_running_command then
      st
    else if st.proto = ProtocolState.PROCESSING ∨ st.proto = ProtocolState.PAUSED then
      let r := send_command st (to_command "M105" (some "temperature") []) none
      if r.1 then cts_set r.2 else r.2
    else if cts_blocked st then
      cts_set st
    else st

/-! ### Public command submission (src lines 329-350) -/

/-- `send_commands` (src lines 329-350).  While `PROCESSING` with a job
that does not run parallel and without `force`: with more than one command
the `command_type` is cleared, then the `for` loop over the commands puts
the first `(command, on_sent)` pair into the command queue and returns
`True` (or `False` on a dedup rejection) — the remaining commands are never
reached.  Otherwise, when operational or forced, all commands go through
`_send_commands`; that branch returns `None`. -/
def send_commands (st : PState) (commands : List Cmd) (command_type : Option String)
    (on_sent : Option Nat) (force : Bool) : Option Bool × PState :=
  if st.proto = ProtocolState.PROCESSING ∧ st.job_runs_parallel = false ∧ force = false then
    let command_type := if 1 < commands.length then none else command_type
    match commands with
    | [] => (none, st)
    | command :: _ =>
        match cq_put st.command_queue (command, on_sent) command_type with
        | some q => (some true, { st with command_queue := q })
        | none => (some false, st)
  else if is_operational st || force then
    let r := send_commands_internal st commands
    (none, r.2)
  else (none, st)

/-! ### The operations of the embedding, as one step type (used to state the
line-number monotonicity invariant over every embedded operation) -/

/-- Every state-mutating operation of the embedding. -/
inductive Op
  | okMsg
  | waitMsg
  | ignoreOkMsg
  | startMsg
  | resendMsg (linenumber : Option Nat)
  | timeoutMsg
  | sendFromQueueStep
  | sendNextFromJobStep
  | continueSendingStep
  | sendNextFromResendStep (again : Bool)
  | sendCommandStep (command : Cmd) (on_sent : Option Nat)
  | sendCommandsStep (commands : List Cmd) (command_type : Option String)
      (on_sent : Option Nat) (force : Bool)
  | incrementAndSendStep (line : List Nat)
  | phaseStep (phase : String) (cmd : Cmd)
  | m110SendingStep (cmd : Cmd)
  | m112QueuingStep
  | finishHeatupStep
  | ctsSetStep
  | ctsClearStep
  | enqueueStep (command : Cmd) (linenumber : Option Nat) (on_sent : Option Nat)
      (processed resend : Bool)
  | pauseFilePrintStep
  deriving DecidableEq, Repr

/-- Applying an operation to the engine state.  For `m112QueuingStep` the
raised `TypeError` propagates before any mutation, leaving the state
unchanged. -/
def step : Op → PState → PState
  | .okMsg, st => on_comm_ok st
  | .waitMsg, st => on_comm_wait st
  | .ignoreOkMsg, st => on_comm_ignore_ok st
  | .startMsg, st => on_comm_start st
  | .resendMsg n, st => on_comm_resend st n
  | .timeoutMsg, st => on_comm_timeout st
  | .sendFromQueueStep, st => (send_from_queue st).2
  | .sendNextFromJobStep, st => (send_next_from_job st).2
  | .continueSendingStep, st => (continue_sending st).2
  | .sendNextFromResendStep again, st => (send_next_from_resend st again).2
  | .sendCommandStep c cb, st => (send_command st c cb).2
  | .sendCommandsStep cs ct cb f, st => (send_commands st cs ct cb f).2
  | .incrementAndSendStep line, st => do_increment_and_send_with_checksum st line
  | .phaseStep phase cmd, st => (process_command_phase phase cmd st).2
  | .m110SendingStep cmd, st => gcode_M110_sending cmd st
  | .m112QueuingStep, st =>
      match gcode_M112_queuing st with
      | .ok r => r.1
      | .error _ => st
  | .finishHeatupStep, st => finish_heatup st
  | .ctsSetStep, st => cts_set st
  | .ctsClearStep, st => cts_clear st
  | .enqueueStep c ln cb p r, st => (enqueue_for_sending st c ln cb p r).2
  | .pauseFilePrintStep, st => pause_file_print st

/-- Whether the operation is the explicit line-reset: the `M110` sending
handler itself, or a phase dispatch carrying an `M110` command (the
`sending` phase would reach `_gcode_M110_sending`). -/
def Op.isLineReset : Op → Bool
  | .m110SendingStep _ => true
  | .phaseStep _ cmd => decide (cmd.codeOf = some "M110")
  | _ => false

/-! ### Concrete states and commands for counterexamples and witnesses -/

/-- A freshly connected engine state mirroring the initial values of
`__init__` (src lines 129-210: line number 1, empty history, `former_tool`
the integer 0, credit 0, resend log enabled) with an active transport and
send loop and the protocol in the idle `CONNECTED` state. -/
def st0 : PState :=
  { proto := ProtocolState.CONNECTED,
    current_linenumber := 1,
    last_lines := [],
    resend_requested := none,
    resend_linenumber := none,
    resend_count := 0,
    long_running_command := false,
    heating := false,
    heating_start := none,
    heatup_start := none,
    heating_lost := 0,
    ignore_ok := 0,
    current_tool := 0,
    former_tool := some 0,
    current_z := none,
    temperatures := [],
    temperature_autoreporting := false,
    sd_status_autoreporting := false,
    firmware_capabilities := [],
    only_from_job := false,
    trigger_events := true,
    timeout_deadline := 0,
    timeout_consecutive := 0,
    timeout_communication := 10,
    now := 0,
    last_communication_error := none,
    command_queue := [],
    send_queue_send := [],
    send_queue_resend := [],
    resend_active := false,
    clear_to_send := 0,
    send_queue_active := true,
    transport_active := true,
    job_lines := [],
    job_present := false,
    job_active := false,
    job_runs_parallel := false,
    job_is_sd := false,
    job_is_stream := false,
    job_pos := 0,
    cancelled_error := false,
    pause_requests := 0,
    resume_requests := 0,
    log_resends := true,
    log_resends_rate_start := none,
    log_resends_rate_count := 0,
    written := [] }

/-- An `M0` command as `to_command` would build it. -/
def m0cmd : Cmd :=
  { kind := .gcode "M0", line := "M0" }

/-- An `M112` command as `to_command` would build it. -/
def m112cmd : Cmd :=
  { kind := .gcode "M112", line := "M112" }

/-- An `M105` command (temperature query). -/
def m105cmd : Cmd :=
  { kind := .gcode "M105", line := "M105" }

/-- An `M110 N7` command with the parsed `N` parameter. -/
def m110n7cmd : Cmd :=
  { kind := .gcode "M110", line := "M110 N7", n := some 7 }

/-- Idle state whose command queue holds one user entry `(M105, no
callback)` as `send_commands` enqueues it. -/
def exC2 : PState :=
  { st0 with command_queue := [((m105cmd, none), none)] }

/-- A printing state at its 11th consecutive timeout: 10 timeouts have
already happened, no long-running command is active. -/
def exC6 : PState :=
  { st0 with proto := ProtocolState.PROCESSING,
             job_present := true, job_active := true,
             timeout_consecutive := 10 }

/-- A printing (busy) state whose history is empty while the printer asks to
resend line 5: the requested line is absent from the history. -/
def exC7 : PState :=
  { st0 with proto := ProtocolState.PROCESSING,
             job_present := true, job_active := true,
             current_linenumber := 10 }

/-- An idle state in which tool 0 was stashed (`former_tool = 0`, exactly the
value `_gcode_M104_sent` stores when waiting with current tool 0) and the
current tool is 2, about to receive an `ok`. -/
def exC9 : PState :=
  { st0 with former_tool := some 0, current_tool := 2 }

/-- A processing state with a non-parallel job, used for the `send_commands`
admission claim. -/
def exC10 : PState :=
  { st0 with proto := ProtocolState.PROCESSING,
             job_present := true, job_active := true }

/-- Frame relation used by the invariant proofs: the second state keeps the
line counter and the tool selection of the first. -/
def PreservesCore (st st' : PState) : Prop :=
  st'.current_linenumber = st.current_linenumber ∧
  st'.current_tool = st.current_tool ∧
  st'.former_tool = st.former_tool

/-! ## Helper lemmas -/

theorem core_refl (st : PState) : PreservesCore st st :=
  ⟨rfl, rfl, rfl⟩

theorem core_trans {a b c : PState} (h1 : PreservesCore a b) (h2 : PreservesCore b c) :
    PreservesCore a c :=
  ⟨h2.1.trans h1.1, h2.2.1.trans h1.2.1, h2.2.2.trans h1.2.2⟩

/-- The decimal bytes of a number are ASCII digits. -/
theorem natDecimalBytes_mem (n : Nat) : ∀ b ∈ natDecimalBytes n, 48 ≤ b ∧ b ≤ 57 := by
  intro b hb
  unfold natDecimalBytes at hb
  split at hb
  · simp only [List.mem_singleton] at hb
    omega
  · simp only [List.mem_reverse, List.mem_map] at hb
    obtain ⟨d, hd, rfl⟩ := hb
    have := Nat.digits_lt_base (by norm_num) hd
    omega

/-- The decimal bytes of a number parse back to it. -/
theorem parseDec_natDecimalBytes (n : Nat) : parseDec (natDecimalBytes n) = n := by
  unfold parseDec natDecimalBytes
  split
  · simp_all [Nat.ofDigits]
  · rw [List.map_reverse, List.reverse_reverse, List.map_map]
    have : (fun b => b - 48) ∘ (fun d => d + 48) = id := by
      funext d
      simp
    rw [this, List.map_id, Nat.ofDigits_digits]

theorem cts_set_core (st : PState) : PreservesCore st (cts_set st) :=
  ⟨rfl, rfl, rfl⟩

theorem cts_clear_core (st : PState) : PreservesCore st (cts_clear st) :=
  ⟨rfl, rfl, rfl⟩

theorem pause_processing_core (st : PState) : PreservesCore st (pause_processing st) :=
  ⟨rfl, rfl, rfl⟩

theorem cancel_processing_core (st : PState) (e : Bool) :
    PreservesCore st (cancel_processing st e) :=
  ⟨rfl, rfl, rfl⟩

theorem resume_processing_core (st : PState) : PreservesCore st (resume_processing st) :=
  ⟨rfl, rfl, rfl⟩

theorem finish_heatup_core (st : PState) : PreservesCore st (finish_heatup st) := by
  unfold finish_heatup
  repeat' first
    | exact ⟨rfl, rfl, rfl⟩
    | split

theorem atcommand_phase_core (phase : String) (cmd : Cmd) (st : PState) :
    PreservesCore st (process_atcommand_phase phase cmd st) := by
  unfold process_atcommand_phase
  repeat' first
    | exact ⟨rfl, rfl, rfl⟩
    | split

theorem enqueue_for_sending_shape (st : PState) (c : Cmd) (ln cb : Option Nat) (p r : Bool) :
    ∃ s q, (enqueue_for_sending st c ln cb p r).2 =
      { st with send_queue_send := s, send_queue_resend := q } := by
  unfold enqueue_for_sending
  dsimp only
  split
  · rename_i s q _
    exact ⟨s, q, rfl⟩
  · exact ⟨st.send_queue_send, st.send_queue_resend, rfl⟩

theorem enqueue_for_sending_core (st : PState) (c : Cmd) (ln cb : Option Nat) (p r : Bool) :
    PreservesCore st (enqueue_for_sending st c ln cb p r).2 := by
  obtain ⟨s, q, hsq⟩ := enqueue_for_sending_shape st c ln cb p r
  rw [hsq]
  exact ⟨rfl, rfl, rfl⟩

theorem phase_queuing_id (cmd : Cmd) (st : PState) :
    process_command_phase "queuing" cmd st = ([cmd], st) :=
  rfl

theorem phase_queued_id (cmd : Cmd) (st : PState) :
    process_command_phase "queued" cmd st = ([cmd], st) := by
  unfold process_command_phase
  rw [if_pos (by decide)]
  split
  · rfl
  · rfl

theorem process_one_core (st : PState) (c : Cmd) (cb : Option Nat) :
    PreservesCore st (send_command_process_one st c cb).2 := by
  unfold send_command_process_one
  dsimp only
  have h1 : PreservesCore st (if c.isAt = true then process_atcommand_phase "queuing" c st else st) := by
    split
    · exact atcommand_phase_core _ _ _
    · exact core_refl _
  generalize hmid : (if c.isAt = true then process_atcommand_phase "queuing" c st else st) = mid at h1 ⊢
  have h2 := enqueue_for_sending_core mid c none cb false false
  split
  · rename_i st2 heq
    have hst2 : st2 = (enqueue_for_sending mid c none cb false false).2 := by
      rw [heq]
    rw [hst2] at *
    refine core_trans h1 (core_trans h2 ?_)
    split
    · exact core_refl _
    · rw [phase_queued_id]
      exact core_refl _
  · rename_i st2 heq
    have hst2 : st2 = (enqueue_for_sending mid c none cb false false).2 := by
      rw [heq]
    rw [hst2]
    exact core_trans h1 h2

theorem send_command_results_core :
    ∀ (l : List Cmd) (st : PState) (cb : Option Nat),
      PreservesCore st (send_command_results st l cb).2
  | [], st, _ => core_refl st
  | [c], st, cb => process_one_core st c cb
  | c :: c2 :: rest, st, cb => by
      have h1 := process_one_core st c none
      have h2 := send_command_results_core (c2 :: rest) (send_command_process_one st c none).2 cb
      simp only [send_command_results]
      exact core_trans h1 h2

theorem send_command_core (st : PState) (c : Cmd) (cb : Option Nat) :
    PreservesCore st (send_command st c cb).2 := by
  unfold send_command
  have hpr : (if st.trigger_events = true then process_command_phase "queuing" c st
      else ([c], st)) = ([c], st) := by
    split
    · exact phase_queuing_id c st
    · rfl
  rw [hpr]
  exact send_command_results_core [c] st cb

theorem send_commands_list_core :
    ∀ (l : List Cmd) (st : PState) (acc : Bool),
      PreservesCore st (send_commands_list l st acc).2
  | [], _, _ => core_refl _
  | c :: rest, st, acc => by
      have h1 := send_command_core st c none
      have h2 := send_commands_list_core rest (send_command st c none).2
        ((send_command st c none).1 || acc)
      simp only [send_commands_list]
      exact core_trans h1 h2

theorem send_commands_internal_core (st : PState) (l : List Cmd) :
    PreservesCore st (send_commands_internal st l).2 :=
  send_commands_list_core l st false

theorem pause_file_print_core (st : PState) : PreservesCore st (pause_file_print st) :=
  send_commands_internal_core st [command_sd_pause]

/-- `_send_from_queue` discards every queued `(command, on_sent)` pair: the
loop requires length-3 tuples while `send_commands` enqueues pairs, so with
enough fuel the queue is fully drained (or left alone under `only_from_job`)
and nothing is ever submitted for sending. -/
theorem send_from_queue_go_drains :
    ∀ (fuel : Nat) (st : PState), st.command_queue.length < fuel →
      send_from_queue_go fuel st =
        (false, if st.only_from_job then st else { st with command_queue := [] }) := by
  intro fuel
  induction fuel with
  | zero =>
      intro st h
      omega
  | succ n ih =>
      intro st h
      unfold send_from_queue_go
      by_cases ho : st.only_from_job = true
      · rw [if_pos ho, if_pos ho]
      · rw [if_neg ho, if_neg ho]
        cases hq : st.command_queue with
        | nil =>
            refine congrArg (fun q => (false, q)) ?_
            cases st
            simp_all
        | cons e rest =>
            dsimp only
            rw [if_neg (by omega)]
            have hlen : ({ st with command_queue := rest } : PState).command_queue.length < n := by
              rw [hq] at h
              simp at h
              simpa using h
            rw [ih _ hlen]
            dsimp only
            rw [if_neg ho]

theorem send_from_queue_spec (st : PState) :
    send_from_queue st =
      (false, if st.only_from_job then st else { st with command_queue := [] }) :=
  send_from_queue_go_drains _ st (by omega)

theorem send_from_queue_core (st : PState) : PreservesCore st (send_from_queue st).2 := by
  rw [send_from_queue_spec]
  split
  · exact core_refl _
  · exact ⟨rfl, rfl, rfl⟩

theorem snd_eq_of_pair {α β : Type} {p : α × β} {a : α} {b : β} (h : p = (a, b)) : b = p.2 := by
  rw [h]

theorem job_get_next_core (st : PState) : PreservesCore st (job_get_next st).2 := by
  unfold job_get_next
  split
  · exact core_refl _
  · exact ⟨rfl, rfl, rfl⟩

theorem send_next_from_job_go_core :
    ∀ (fuel : Nat) (st : PState), PreservesCore st (send_next_from_job_go fuel st).2
  | 0, st => core_refl st
  | fuel + 1, st => by
      unfold send_next_from_job_go
      split
      · split
        · split
          · rename_i st2 heq
            rw [snd_eq_of_pair heq]
            exact job_get_next_core st
          · rename_i line st2 heq
            have h2 : PreservesCore st st2 := by
              rw [snd_eq_of_pair heq]
              exact job_get_next_core st
            dsimp only
            split
            · exact core_trans h2 (send_command_core _ _ _)
            · exact core_trans h2 (core_trans (send_command_core _ _ _)
                (send_next_from_job_go_core fuel _))
        · exact core_refl st
      · exact core_refl st

theorem send_next_from_job_core (st : PState) : PreservesCore st (send_next_from_job st).2 :=
  send_next_from_job_go_core _ st

theorem continue_sending_go_core :
    ∀ (fuel : Nat) (st : PState), PreservesCore st (continue_sending_go fuel st).2
  | 0, st => core_refl st
  | fuel + 1, st => by
      unfold continue_sending_go
      split
      · split
        · dsimp only
          split
          · exact send_from_queue_core st
          · split
            · exact core_trans (send_from_queue_core st) (send_next_from_job_core _)
            · exact core_trans (send_from_queue_core st)
                (core_trans (send_next_from_job_core _) (continue_sending_go_core fuel _))
        · exact send_from_queue_core st
      · exact core_refl st

theorem continue_sending_core (st : PState) : PreservesCore st (continue_sending st).2 :=
  continue_sending_go_core _ st

theorem send_next_from_resend_core (st : PState) (again : Bool) :
    PreservesCore st (send_next_from_resend st again).2 := by
  unfold send_next_from_resend
  dsimp only
  repeat' first
    | exact ⟨rfl, rfl, rfl⟩
    | exact ⟨(enqueue_for_sending_core _ _ _ _ _ _).1,
             (enqueue_for_sending_core _ _ _ _ _ _).2.1,
             (enqueue_for_sending_core _ _ _ _ _ _).2.2⟩
    | split

theorem resend_rate_limited_log_core (st : PState) :
    PreservesCore st (resend_rate_limited_log st) := by
  unfold resend_rate_limited_log
  dsimp only
  repeat' first
    | exact ⟨rfl, rfl, rfl⟩
    | split

theorem on_comm_resend_store_core (st : PState) (n : Nat) :
    PreservesCore st (on_comm_resend_store st n) := by
  unfold on_comm_resend_store
  dsimp only
  exact ⟨(resend_rate_limited_log_core _).1, (resend_rate_limited_log_core _).2.1,
         (resend_rate_limited_log_core _).2.2⟩

theorem on_comm_resend_core (st : PState) (ln : Option Nat) :
    PreservesCore st (on_comm_resend st ln) := by
  unfold on_comm_resend
  dsimp only
  split
  · exact core_refl st
  · split
    · exact core_refl st
    · split
      · exact ⟨rfl, rfl, rfl⟩
      · split
        · exact ⟨rfl, rfl, rfl⟩
        · split
          · exact ⟨(on_comm_resend_store_core _ _).1, (on_comm_resend_store_core _ _).2.1,
                   (on_comm_resend_store_core _ _).2.2⟩
          · exact ⟨(on_comm_resend_store_core _ _).1, (on_comm_resend_store_core _ _).2.1,
                   (on_comm_resend_store_core _ _).2.2⟩

theorem enqueue_for_sending_proto (st : PState) (c : Cmd) (ln cb : Option Nat) (p r : Bool) :
    ((enqueue_for_sending st c ln cb p r).2).proto = st.proto := by
  obtain ⟨s, q, hsq⟩ := enqueue_for_sending_shape st c ln cb p r
  rw [hsq]

theorem finish_heatup_proto (st : PState) : (finish_heatup st).proto = st.proto := by
  unfold finish_heatup
  repeat' first
    | rfl
    | split

theorem send_next_from_resend_proto (st : PState) (again : Bool) :
    ((send_next_from_resend st again).2).proto = st.proto := by
  unfold send_next_from_resend
  dsimp only
  repeat' first
    | rfl
    | exact enqueue_for_sending_proto _ _ _ _ _ _
    | split

theorem send_command_proto_notAt (st : PState) (c : Cmd) (cb : Option Nat)
    (h : c.isAt = false) :
    ((send_command st c cb).2).proto = st.proto := by
  unfold send_command
  have hpr : (if st.trigger_events = true then process_command_phase "queuing" c st
      else ([c], st)) = ([c], st) := by
    split
    · exact phase_queuing_id c st
    · rfl
  rw [hpr]
  show ((send_command_results st [c] cb).2).proto = st.proto
  unfold send_command_results send_command_process_one
  rw [if_neg (by simp [h])]
  dsimp only
  split
  · rename_i st2 heq
    have h2 : st2.proto = st.proto := by
      rw [snd_eq_of_pair heq]
      exact enqueue_for_sending_proto _ _ _ _ _ _
    dsimp only
    split
    · exact h2
    · rw [phase_queued_id]
      exact h2
  · rename_i st2 heq
    rw [snd_eq_of_pair heq]
    exact enqueue_for_sending_proto _ _ _ _ _ _

theorem cts_set_proto (st : PState) : (cts_set st).proto = st.proto :=
  rfl

theorem on_comm_timeout_proto_pres (st : PState) : (on_comm_timeout st).proto = st.proto := by
  have hm105 : (to_command "M105" (some "temperature") []).isAt = false := by decide
  unfold on_comm_timeout send_same_from_resend
  dsimp only
  repeat' first
    | rfl
    | exact send_next_from_resend_proto _ _
    | exact (cts_set_proto _).trans (send_next_from_resend_proto _ _)
    | exact finish_heatup_proto _
    | exact send_command_proto_notAt _ _ _ hm105
    | exact (cts_set_proto _).trans (send_command_proto_notAt _ _ _ hm105)
    | split

theorem on_comm_timeout_core (st : PState) : PreservesCore st (on_comm_timeout st) := by
  unfold on_comm_timeout send_same_from_resend
  dsimp only
  repeat' first
    | exact ⟨rfl, rfl, rfl⟩
    | exact ⟨(send_next_from_resend_core _ _).1, (send_next_from_resend_core _ _).2.1,
             (send_next_from_resend_core _ _).2.2⟩
    | exact ⟨(finish_heatup_core _).1, (finish_heatup_core _).2.1, (finish_heatup_core _).2.2⟩
    | exact ⟨(send_command_core _ _ _).1, (send_command_core _ _ _).2.1,
             (send_command_core _ _ _).2.2⟩
    | split

theorem on_comm_ok_linenumber (st : PState) :
    (on_comm_ok st).current_linenumber = st.current_linenumber := by
  unfold on_comm_ok
  dsimp only
  repeat' first
    | rfl
    | exact ((send_next_from_resend_core _ _).1).trans ((finish_heatup_core _).1)
    | exact ((continue_sending_core _).1).trans ((finish_heatup_core _).1)
    | exact (finish_heatup_core _).1
    | split

theorem on_comm_wait_linenumber (st : PState) :
    (on_comm_wait st).current_linenumber = st.current_linenumber := by
  unfold on_comm_wait
  split
  · exact on_comm_ok_linenumber st
  · rfl

theorem send_commands_core (st : PState) (cs : List Cmd) (ct : Option String)
    (cb : Option Nat) (f : Bool) : PreservesCore st (send_commands st cs ct cb f).2 := by
  unfold send_commands
  dsimp only
  repeat' first
    | exact ⟨rfl, rfl, rfl⟩
    | exact ⟨(send_commands_internal_core _ _).1, (send_commands_internal_core _ _).2.1,
             (send_commands_internal_core _ _).2.2⟩
    | split

theorem gcode_T_sent_line (cmd : Cmd) (st : PState) :
    (gcode_T_sent cmd st).current_linenumber = st.current_linenumber := by
  unfold gcode_T_sent
  split <;> rfl

theorem gcode_G0_sent_line (cmd : Cmd) (st : PState) :
    (gcode_G0_sent cmd st).current_linenumber = st.current_linenumber := by
  unfold gcode_G0_sent
  repeat' first
    | rfl
    | split

theorem gcode_M155_sending_line (cmd : Cmd) (st : PState) :
    (gcode_M155_sending cmd st).current_linenumber = st.current_linenumber := by
  unfold gcode_M155_sending
  split <;> rfl

theorem gcode_M27_sending_line (cmd : Cmd) (st : PState) :
    (gcode_M27_sending cmd st).current_linenumber = st.current_linenumber := by
  unfold gcode_M27_sending
  split <;> rfl

theorem gcode_M104_sent_line (cmd : Cmd) (w s : Bool) (st : PState) :
    (gcode_M104_sent cmd w s st).current_linenumber = st.current_linenumber := by
  unfold gcode_M104_sent set_temperature
  dsimp only
  repeat' first
    | rfl
    | split

theorem gcode_M140_sent_line (cmd : Cmd) (w s : Bool) (st : PState) :
    (gcode_M140_sent cmd w s st).current_linenumber = st.current_linenumber := by
  unfold gcode_M140_sent set_temperature
  dsimp only
  repeat' first
    | rfl
    | split

theorem gcode_M109_sent_line (cmd : Cmd) (st : PState) :
    (gcode_M109_sent cmd st).current_linenumber = st.current_linenumber := by
  unfold gcode_M109_sent
  exact gcode_M104_sent_line _ _ _ _

theorem gcode_M190_sent_line (cmd : Cmd) (st : PState) :
    (gcode_M190_sent cmd st).current_linenumber = st.current_linenumber := by
  unfold gcode_M190_sent
  exact gcode_M140_sent_line _ _ _ _

theorem gcode_M116_sent_line (st : PState) :
    (gcode_M116_sent st).current_linenumber = st.current_linenumber :=
  rfl

theorem gcode_G4_sent_line (cmd : Cmd) (st : PState) :
    (gcode_G4_sent cmd st).current_linenumber = st.current_linenumber :=
  rfl

set_option maxHeartbeats 2000000 in
theorem run_gcode_handler_linenumber (phase : String) (cmd : Cmd) (st st2 : PState)
    (hr : HandlerResult) (h : run_gcode_handler phase cmd st = some (st2, hr))
    (hm : cmd.codeOf ≠ some "M110") :
    st2.current_linenumber = st.current_linenumber := by
  unfold run_gcode_handler at h
  repeat' split at h
  all_goals cases h
  all_goals first
    | exact absurd (by assumption) hm
    | exact gcode_T_sent_line _ _
    | exact gcode_G0_sent_line _ _
    | exact gcode_M155_sending_line _ _
    | exact gcode_M27_sending_line _ _
    | exact gcode_M104_sent_line _ _ _ _
    | exact gcode_M140_sent_line _ _ _ _
    | exact gcode_M109_sent_line _ _
    | exact gcode_M190_sent_line _ _
    | exact gcode_G4_sent_line _ _
    | exact gcode_M116_sent_line _

theorem process_phase_linenumber (phase : String) (cmd : Cmd) (st : PState)
    (hm : cmd.codeOf ≠ some "M110") :
    ((process_command_phase phase cmd st).2).current_linenumber = st.current_linenumber := by
  unfold process_command_phase
  split
  · split
    · split
      · rename_i st2 hr2 heq
        dsimp only
        split
        · exact run_gcode_handler_linenumber _ _ _ _ _ heq hm
        · exact run_gcode_handler_linenumber _ _ _ _ _ heq hm
      · rfl
    · rfl
  · rfl

theorem do_increment_linenumber (st : PState) (line : List Nat) :
    (do_increment_and_send_with_checksum st line).current_linenumber =
      st.current_linenumber + 1 :=
  rfl

theorem m112_step_unchanged (st : PState) :
    (match gcode_M112_queuing st with
     | .ok r => r.1
     | .error _ => st) = st :=
  rfl

theorem resend_rate_limited_log_shape (st : PState) :
    ∃ a b, resend_rate_limited_log st =
      { st with log_resends_rate_start := a, log_resends_rate_count := b } := by
  unfold resend_rate_limited_log
  dsimp only
  repeat' first
    | exact ⟨_, _, rfl⟩
    | exact ⟨st.log_resends_rate_start, st.log_resends_rate_count, rfl⟩
    | split

theorem on_comm_resend_store_shape (st : PState) (n : Nat) :
    ∃ a b, on_comm_resend_store st n =
      { st with resend_requested := some n, resend_linenumber := some n, resend_count := 0,
                resend_active := true, log_resends_rate_start := a,
                log_resends_rate_count := b } := by
  unfold on_comm_resend_store
  dsimp only
  obtain ⟨a, b, hab⟩ := resend_rate_limited_log_shape
    { st with resend_requested := some n, resend_linenumber := some n, resend_count := 0 }
  rw [hab]
  exact ⟨a, b, rfl⟩

/-! ## Claim theorems -/

/-- C2: the claim says every `(command, on_sent)` entry of the command queue
is dequeued by the sending loop in FIFO order and submitted for sending.  In
the code `_send_from_queue` demands length-3 tuples while `send_commands`
enqueues pairs, so every entry is dequeued and thrown away: the call returns
`False` with the command queue drained and the rest of the state — in
particular the send queue — untouched. -/
theorem C2_command_queue_entries_discarded (st : PState) (h : st.only_from_job = false) :
    send_from_queue st = (false, { st with command_queue := [] }) := by
  rw [send_from_queue_spec]
  simp [h]

/-- Witness for C2: the concrete idle state with one queued `(M105, None)`
entry loses it without anything reaching the send queue. -/
theorem C2_witness : send_from_queue exC2 = (false, { exC2 with command_queue := [] }) :=
  C2_command_queue_entries_discarded exC2 rfl

/-- C6: the claim says that once the consecutive-timeout counter exceeds its
maximum the protocol transitions to `DISCONNECTED_WITH_ERROR`.  In the code
the give-up branch is `pass` with a TODO (src lines 531-534), and no branch
of `_on_comm_timeout` changes the protocol state at all; at the concrete
11th consecutive timeout while `PROCESSING` (maximum 10) the counter
becomes 11 and the state stays `PROCESSING`. -/
theorem C6_timeout_gives_up_without_disconnect :
    (∀ st : PState, (on_comm_timeout st).proto = st.proto) ∧
    (on_comm_timeout exC6).timeout_consecutive = 11 ∧
    (on_comm_timeout exC6).proto = ProtocolState.PROCESSING := by
  refine ⟨on_comm_timeout_proto_pres, ?_, ?_⟩ <;> decide

/-- C4: every checksummed outbound line written to the transport is
`N<line_number> <line>*<checksum>` followed by a line feed, where the
checksum text consists of decimal digits whose value is the XOR of the bytes
of `N<line_number> <line>`. -/
theorem C4_checksummed_wire_format (line : List Nat) (n : Nat) :
    ∃ body digits,
      do_send_with_checksum line n = body ++ [42] ++ digits ++ [10] ∧
      body = [78] ++ natDecimalBytes n ++ [32] ++ line ∧
      (∀ b ∈ digits, 48 ≤ b ∧ b ≤ 57) ∧
      parseDec digits = xorBytes body := by
  refine ⟨[78] ++ natDecimalBytes n ++ [32] ++ line,
          natDecimalBytes (xorBytes ([78] ++ natDecimalBytes n ++ [32] ++ line)),
          ?_, rfl, natDecimalBytes_mem _, parseDec_natDecimalBytes _⟩
  simp [do_send_with_checksum, do_send_without_checksum]

/-- C5: for a non-resend command, the send loop transmits raw when the
transport declares message integrity, and otherwise checksums exactly when
`requires_checksum ∨ (allows_checksum ∧ enabled)` as the claim words them. -/
theorem C5_checksum_policy (message_integrity : Bool) (flavor : FlavorFlags)
    (state : ProtocolState) (command : Cmd) :
    send_loop_checksum_decision message_integrity flavor state command =
      checksum_policy_spec message_integrity flavor state command := by
  cases message_integrity <;> rfl

/-- C1: the claim says an `M0`/`M1` submitted for sending pauses the job in
the queuing phase exactly once and is never transmitted.  In the code the
phase guard of `_process_command_phase` (src line 1129) checks the
misspelled `"queueing"`, so running the real `queuing` phase returns the
`M0` unchanged and touches nothing — the registered `_gcode_M0_queuing`
handler (which would pause and drop) is unreachable, no pause happens, and
the surviving command proceeds to transmission. -/
theorem C1_queuing_phase_skips_m0_handler (st : PState) :
    process_command_phase "queuing" m0cmd st = ([m0cmd], st) ∧
    has_gcode_handler "M0" "queuing" = true ∧
    (gcode_M0_queuing st).2 = HandlerResult.drop := by
  exact ⟨rfl, rfl, rfl⟩

/-- C3: the claim says `M112` writes the checksummed emergency-stop line
twice and then begins teardown.  In the code the `_gcode_M112_queuing`
handler is unreachable (same `"queueing"` phase-guard misspelling as C1), so
an `M112` passes the queuing phase unchanged; and the handler itself, if
invoked, raises `TypeError` on its first write because it passes only one
argument to `_do_send_with_checksum` — nothing is ever written twice and no
teardown is reached (the teardown block is commented out in the source). -/
theorem C3_m112_emergency_stop_broken (st : PState) :
    gcode_M112_queuing st = Except.error PyErr.typeError ∧
    process_command_phase "queuing" m112cmd st = ([m112cmd], st) ∧
    has_gcode_handler "M112" "queuing" = true := by
  exact ⟨rfl, rfl, rfl⟩

/-- Counterexample to C7: in a busy state whose history does not hold line
5, the resend handler does not merely cancel — it also stores the resend
request and cursor and marks the queue resend-active, contradicting the
claim that those are set only when the line is present in history. -/
theorem C7_counterexample :
    historyContains exC7.last_lines 5 = false ∧ is_busy exC7 = true ∧
    (on_comm_resend exC7 (some 5)).resend_requested = some 5 ∧
    (on_comm_resend exC7 (some 5)).resend_active = true ∧
    (on_comm_resend exC7 (some 5)).cancelled_error = true := by
  decide

/-- C7 (amended): when a resend request names a line `N` absent from the
history, the engine logs an error and, if busy, cancels processing with
error **and still falls through to store `resend.requested`, the cursor and
a zero count and to mark the queue resend-active**; if not busy it returns
with only the stored communication error cleared.  When `N` is present in
history (and the earlier ignore-guards did not fire) it stores the resend
state as the claim says, leaving the protocol state alone. -/
theorem C7_resend_unknown_line (st : PState) (n : Nat)
    (hg1 : ¬(st.resend_requested = none ∧ n = st.current_linenumber))
    (hg2 : ¬(st.last_communication_error = some "linenumber" ∧ some n = st.resend_requested ∧
              st.resend_count < st.current_linenumber - n - 1)) :
    (historyContains st.last_lines n = false → is_busy st = false →
        on_comm_resend st (some n) = { st with last_communication_error := none }) ∧
    (historyContains st.last_lines n = false → is_busy st = true →
        (on_comm_resend st (some n)).resend_requested = some n ∧
        (on_comm_resend st (some n)).resend_linenumber = some n ∧
        (on_comm_resend st (some n)).resend_count = 0 ∧
        (on_comm_resend st (some n)).resend_active = true ∧
        (on_comm_resend st (some n)).cancelled_error = true ∧
        (on_comm_resend st (some n)).proto = ProtocolState.CANCELLING) ∧
    (historyContains st.last_lines n = true →
        (on_comm_resend st (some n)).resend_requested = some n ∧
        (on_comm_resend st (some n)).resend_linenumber = some n ∧
        (on_comm_resend st (some n)).resend_count = 0 ∧
        (on_comm_resend st (some n)).resend_active = true ∧
        (on_comm_resend st (some n)).proto = st.proto ∧
        (on_comm_resend st (some n)).cancelled_error = st.cancelled_error) := by
  unfold on_comm_resend
  dsimp only
  rw [if_neg hg1, if_neg hg2]
  refine ⟨?_, ?_, ?_⟩
  · intro hc hb
    rw [if_pos ⟨hc, hb⟩]
  · intro hc hb
    have hbm : is_busy { st with last_communication_error := none } = true := hb
    rw [if_neg (fun hcon => absurd hcon.2 (by simp [hbm])), if_pos hc]
    obtain ⟨a, b, hab⟩ := on_comm_resend_store_shape
      (cancel_processing { st with last_communication_error := none } true) n
    rw [hab]
    refine ⟨rfl, rfl, rfl, rfl, ?_, ?_⟩
    · show (cancel_processing { st with last_communication_error := none } true).cancelled_error = true
      simp [cancel_processing]
    · show (cancel_processing { st with last_communication_error := none } true).proto =
        ProtocolState.CANCELLING
      simp only [cancel_processing]
      rw [if_pos hbm]
  · intro hc
    rw [if_neg (fun hcon => by rw [hc] at hcon; exact absurd hcon.1 (by simp)),
        if_neg (by simp [hc])]
    obtain ⟨a, b, hab⟩ := on_comm_resend_store_shape
      { st with last_communication_error := none } n
    rw [hab]
    exact ⟨rfl, rfl, rfl, rfl, rfl, rfl⟩

/-- Witness for C7: the amended theorem applied at the concrete busy state
with history empty and requested line 5. -/
theorem C7_witness : (on_comm_resend exC7 (some 5)).resend_linenumber = some 5 :=
  ((C7_resend_unknown_line exC7 5 (by decide) (by decide)).2.1 (by decide) (by decide)).2.1

/-- C8: `current_line` is monotonically non-decreasing under every embedded
operation except the explicit line-reset (`M110`), whose sending handler
sets the counter to the commanded value, clears the line history and clears
the resend cursor. -/
theorem C8_linenumber_monotone_except_m110 :
    (∀ (op : Op) (st : PState), op.isLineReset = false →
        st.current_linenumber ≤ (step op st).current_linenumber) ∧
    (∀ (st : PState) (cmd : Cmd) (k : Nat), cmd.n = some k →
        (gcode_M110_sending cmd st).current_linenumber = k ∧
        (gcode_M110_sending cmd st).last_lines = [] ∧
        (gcode_M110_sending cmd st).resend_linenumber = none) := by
  constructor
  · intro op st hop
    cases op with
    | okMsg => exact (on_comm_ok_linenumber st).ge
    | waitMsg => exact (on_comm_wait_linenumber st).ge
    | ignoreOkMsg => exact Nat.le.refl
    | startMsg =>
        dsimp only [step]
        unfold on_comm_start
        split
        · exact Nat.le.refl
        · exact Nat.le.refl
    | resendMsg n => exact (on_comm_resend_core st n).1.ge
    | timeoutMsg => exact (on_comm_timeout_core st).1.ge
    | sendFromQueueStep => exact (send_from_queue_core st).1.ge
    | sendNextFromJobStep => exact (send_next_from_job_core st).1.ge
    | continueSendingStep => exact (continue_sending_core st).1.ge
    | sendNextFromResendStep a => exact (send_next_from_resend_core st a).1.ge
    | sendCommandStep c cb => exact (send_command_core st c cb).1.ge
    | sendCommandsStep cs ct cb f => exact (send_commands_core st cs ct cb f).1.ge
    | incrementAndSendStep line => exact Nat.le_succ _
    | phaseStep phase cmd =>
        have hm : cmd.codeOf ≠ some "M110" := by
          simpa [Op.isLineReset] using hop
        exact (process_phase_linenumber phase cmd st hm).ge
    | m110SendingStep cmd =>
        simp [Op.isLineReset] at hop
    | m112QueuingStep => exact Nat.le.refl
    | finishHeatupStep => exact (finish_heatup_core st).1.ge
    | ctsSetStep => exact Nat.le.refl
    | ctsClearStep => exact Nat.le.refl
    | enqueueStep c ln cb p r => exact (enqueue_for_sending_core st c ln cb p r).1.ge
    | pauseFilePrintStep => exact (pause_file_print_core st).1.ge
  · intro st cmd k hk
    unfold gcode_M110_sending
    rw [hk]
    exact ⟨rfl, rfl, rfl⟩

/-- Witness for C8: an `ok` never lowers the line counter of the fresh
state, and the `M110 N7` handler resets the counter to 7. -/
theorem C8_witness :
    st0.current_linenumber ≤ (step Op.okMsg st0).current_linenumber ∧
    (gcode_M110_sending m110n7cmd st0).current_linenumber = 7 :=
  ⟨C8_linenumber_monotone_except_m110.1 Op.okMsg st0 (by decide),
   (C8_linenumber_monotone_except_m110.2 st0 m110n7cmd 7 rfl).1⟩

/-- Counterexample to C9: the claim says any stashed former tool — tool 0
included — is restored by an `ok`.  In the concrete state with
`former_tool = 0` and `current_tool = 2`, the truthiness test
`if self._internal_state["former_tool"]:` fails for the integer 0, so the
`ok` neither restores the tool nor clears the stash. -/
theorem C9_counterexample :
    exC9.former_tool = some 0 ∧
    ¬((on_comm_ok exC9).current_tool = 0 ∧ (on_comm_ok exC9).former_tool = none) := by
  decide

/-- C9 (amended): an `ok` that is not ignored and not received while
`CONNECTING` restores `current_tool` from a stashed former tool and clears
the stash **only when the stashed value is non-zero** (a stashed tool 0 is
indistinguishable from the initial 0 for the truthiness test and is left in
place). -/
theorem C9_ok_restores_nonzero_tool (st : PState) (t : Nat)
    (h0 : st.ignore_ok = 0) (h1 : st.proto ≠ ProtocolState.CONNECTING)
    (h2 : st.former_tool = some t) (h3 : t ≠ 0) :
    (on_comm_ok st).current_tool = t ∧ (on_comm_ok st).former_tool = none := by
  unfold on_comm_ok cts_set
  rw [if_neg (by omega), if_neg h1]
  dsimp only
  rw [h2]
  dsimp only
  rw [if_pos h3]
  repeat' first
    | exact ⟨((send_next_from_resend_core _ _).2.1).trans (finish_heatup_core _).2.1,
             ((send_next_from_resend_core _ _).2.2).trans (finish_heatup_core _).2.2⟩
    | exact ⟨((continue_sending_core _).2.1).trans (finish_heatup_core _).2.1,
             ((continue_sending_core _).2.2).trans (finish_heatup_core _).2.2⟩
    | exact ⟨(finish_heatup_core _).2.1, (finish_heatup_core _).2.2⟩
    | split

/-- Witness for C9: the amended theorem applied at the idle state with
stashed tool 2 and current tool 0. -/
theorem C9_witness :
    (on_comm_ok { st0 with former_tool := some 2 }).current_tool = 2 ∧
    (on_comm_ok { st0 with former_tool := some 2 }).former_tool = none :=
  C9_ok_restores_nonzero_tool { st0 with former_tool := some 2 } 2 rfl
    (by decide) rfl (by decide)

/-- C10: while `PROCESSING` with a job that does not run parallel and
without `force`, a `send_commands` call with more than one command clears
the dedup type, enqueues only the first `(command, on_sent)` pair on the
command queue and returns `True` immediately; the remaining commands are
never enqueued. -/
theorem C10_send_commands_only_first_enqueued (st : PState) (c c2 : Cmd)
    (rest : List Cmd) (ct : Option String) (cb : Option Nat)
    (h1 : st.proto = ProtocolState.PROCESSING) (h2 : st.job_runs_parallel = false) :
    send_commands st (c :: c2 :: rest) ct cb false =
      (some true, { st with command_queue := st.command_queue ++ [((c, cb), none)] }) := by
  unfold send_commands
  rw [if_pos ⟨h1, h2, rfl⟩]
  dsimp only
  rw [if_pos (by simp)]
  rfl

/-- Witness for C10: the processing state receives two commands; only the
first lands on the command queue. -/
theorem C10_witness :
    send_commands exC10 [m0cmd, m105cmd] none none false =
      (some true, { exC10 with command_queue := [((m0cmd, none), none)] }) :=
  C10_send_commands_only_first_enqueued exC10 m0cmd m105cmd [] none none rfl rfl

end Reprap
